import Mathlib

/-!
Verification of the classification response pipeline of the
asset-compute example workers.

The development shallowly embeds two workers:

* the custom-tag worker (`callClassifier` / `exports.main`): sequential
  classifier invocation over a list of classifier ids, abort on failure,
  concatenation of the returned tags, serialization to an XMP label tree;
* the color-extract worker (`parseColors` / `sortColors` /
  `toPercentageString` / `toWebColor` / `exports.main`): multipart
  response decoding, color feature extraction, descending stable sort by
  coverage and assembly of the three XMP projections.

JavaScript strings are modelled as Lean `String`; the JavaScript string
operations used by the source (`split`, `indexOf`, `trim`, `replace`) are
embedded as executable functions below with the same first-occurrence /
left-to-right semantics.  JavaScript numbers are modelled as exact
rationals `Rat`; JSON documents as the inductive `Json`.
-/

/-! ## JavaScript string primitives -/

/-- Decide whether the first list is a leading segment of the second. -/
def isPre : List Char → List Char → Bool
  | [], _ => true
  | _ :: _, [] => false
  | p :: ps, c :: cs => p = c && isPre ps cs

/-- Work loop of `jsIndexOf`: first position at or after `i` where the
pattern occurs, `-1` when there is none. -/
def jsIndexOfAux (pat : List Char) : List Char → Nat → Int
  | [], i => if isPre pat [] then (i : Int) else -1
  | c :: cs, i => if isPre pat (c :: cs) then (i : Int) else jsIndexOfAux pat cs (i + 1)

/-- JavaScript `s.indexOf(pat)`: index of the first occurrence of `pat`
in `s`, or `-1` when `pat` does not occur.  The empty pattern occurs at
index 0, as in JavaScript. -/
def jsIndexOf (s pat : String) : Int :=
  jsIndexOfAux pat.data s.data 0

/-- Work loop of `jsSplit`.  `acc` holds the current segment reversed;
the fuel dominates the remaining input length, so it never runs out for
a non-empty separator. -/
def jsSplitAux (sep : List Char) : Nat → List Char → List Char → List (List Char)
  | _, acc, [] => [acc.reverse]
  | 0, acc, rest => [acc.reverse ++ rest]
  | fuel + 1, acc, c :: cs =>
    if isPre sep (c :: cs) then
      acc.reverse :: jsSplitAux sep fuel [] ((c :: cs).drop sep.length)
    else
      jsSplitAux sep fuel (c :: acc) cs

/-- JavaScript `s.split(sep)` for a non-empty string separator: the list
of segments between non-overlapping left-to-right occurrences of `sep`.
The workers only ever split on the non-empty separators `","`, `";"`,
`"="`, `"\r\n"` and `"--" + boundary`. -/
def jsSplit (s sep : String) : List String :=
  (jsSplitAux sep.data (s.data.length + 1) [] s.data).map List.asString

/-- Character class of JavaScript `String.prototype.trim`. -/
def isWsChar (c : Char) : Bool :=
  c = ' ' || c = '\n' || c = '\t' || c = '\r' || c = '\x0b' || c = '\x0c'

/-- JavaScript `s.trim()`: strip whitespace from both ends. -/
def jsTrim (s : String) : String :=
  (((s.data.dropWhile isWsChar).reverse.dropWhile isWsChar).reverse).asString

/-- Work loop of `jsReplaceFirst`. -/
def jsReplaceFirstAux (pat rep : List Char) : Nat → List Char → List Char
  | _, [] => if isPre pat [] then rep else []
  | 0, s => s
  | fuel + 1, c :: cs =>
    if isPre pat (c :: cs) then rep ++ (c :: cs).drop pat.length
    else c :: jsReplaceFirstAux pat rep fuel cs

/-- JavaScript `s.replace(pat, rep)` for a string pattern: replace the
first occurrence of `pat` only.  Used by both workers to substitute the
classifier id into the endpoint template. -/
def jsReplaceFirst (s pat rep : String) : String :=
  (jsReplaceFirstAux pat.data rep.data (s.data.length + 1) s.data).asString

/-! ## JSON values and `JSON.parse`

The workers feed classifier response bodies to the runtime `JSON.parse`.
We model JSON documents as an inductive and provide an executable
recursive-descent parser over the character list; numbers are modelled
as exact rationals (the idealization of IEEE doubles; every numeric
literal in the verified claims is exactly representable either way). -/

inductive Json where
  | null : Json
  | bool (b : Bool) : Json
  | num (q : Rat) : Json
  | str (s : String) : Json
  | arr (elems : List Json) : Json
  | obj (fields : List (String × Json)) : Json

/-- Drop leading JSON whitespace. -/
def jsonSkipWs : List Char → List Char
  | [] => []
  | c :: cs => if c = ' ' || c = '\n' || c = '\t' || c = '\r' then jsonSkipWs cs else c :: cs

/-- Value of a hexadecimal digit character (both cases), `none` for
other characters. -/
def hexVal (c : Char) : Option Nat :=
  let n := c.toNat
  if 48 ≤ n && n ≤ 57 then some (n - 48)
  else if 97 ≤ n && n ≤ 102 then some (n - 87)
  else if 65 ≤ n && n ≤ 70 then some (n - 55)
  else none

/-- Parse the body of a JSON string literal, the opening quote already
consumed. -/
def jsonStrBody (acc : List Char) : List Char → Option (String × List Char)
  | [] => none
  | '"' :: rest => some (acc.reverse.asString, rest)
  | '\\' :: rest =>
    match rest with
    | [] => none
    | e :: r2 =>
      if e = '"' then jsonStrBody ('"' :: acc) r2
      else if e = '\\' then jsonStrBody ('\\' :: acc) r2
      else if e = '/' then jsonStrBody ('/' :: acc) r2
      else if e = 'n' then jsonStrBody ('\n' :: acc) r2
      else if e = 't' then jsonStrBody ('\t' :: acc) r2
      else if e = 'r' then jsonStrBody ('\r' :: acc) r2
      else if e = 'b' then jsonStrBody ('\x08' :: acc) r2
      else if e = 'f' then jsonStrBody ('\x0c' :: acc) r2
      else if e = 'u' then
        match r2 with
        | a :: b :: c :: d :: r3 =>
          match ([a, b, c, d].mapM hexVal).map (List.foldl (fun acc v => 16 * acc + v) 0) with
          | some code => jsonStrBody (Char.ofNat code :: acc) r3
          | none => none
        | _ => none
      else none
  | c :: rest => jsonStrBody (c :: acc) rest

/-- Numeric value of a block of decimal digits. -/
def digitsVal (ds : List Char) : Nat :=
  ds.foldl (fun a c => 10 * a + (c.toNat - '0'.toNat)) 0

/-- Parse an unsigned JSON number literal, returning its exact rational
value. -/
def jsonNumberCore (cs1 : List Char) : Option (Rat × List Char) :=
  let ip := cs1.takeWhile Char.isDigit
  let r1 := cs1.dropWhile Char.isDigit
  if ip.isEmpty then none else
  let hasDot : Bool := match r1 with
    | '.' :: _ => true
    | _ => false
  let (fp, r2) := match r1 with
    | '.' :: r => (r.takeWhile Char.isDigit, r.dropWhile Char.isDigit)
    | _ => ([], r1)
  if hasDot && fp.isEmpty then none else
  let (hasExp, expNeg, ed, r3) := match r2 with
    | 'e' :: '-' :: r => (true, true, r.takeWhile Char.isDigit, r.dropWhile Char.isDigit)
    | 'e' :: '+' :: r => (true, false, r.takeWhile Char.isDigit, r.dropWhile Char.isDigit)
    | 'e' :: r => (true, false, r.takeWhile Char.isDigit, r.dropWhile Char.isDigit)
    | 'E' :: '-' :: r => (true, true, r.takeWhile Char.isDigit, r.dropWhile Char.isDigit)
    | 'E' :: '+' :: r => (true, false, r.takeWhile Char.isDigit, r.dropWhile Char.isDigit)
    | 'E' :: r => (true, false, r.takeWhile Char.isDigit, r.dropWhile Char.isDigit)
    | _ => (false, false, [], r2)
  if hasExp && ed.isEmpty then none else
  let base : Rat := ((digitsVal (ip ++ fp) : Int) : Rat) / ((10 : Rat) ^ fp.length)
  let q : Rat := if hasExp then
      (if expNeg then base / ((10 : Rat) ^ digitsVal ed) else base * ((10 : Rat) ^ digitsVal ed))
    else base
  some (q, r3)

/-- Parse a JSON number literal, a leading minus sign included. -/
def jsonNumber : List Char → Option (Rat × List Char)
  | '-' :: r => (jsonNumberCore r).map (fun p => (-p.1, p.2))
  | cs => jsonNumberCore cs

/-- Parsing modes of the JSON parser: a single value, the remaining
elements of an array, or the remaining fields of an object. -/
inductive JMode where
  | val : JMode
  | elems (first : Bool) : JMode
  | fields (first : Bool) : JMode

/-- Partial results of the JSON parser. -/
inductive JOut where
  | v (j : Json) : JOut
  | vs (js : List Json) : JOut
  | fs (fs : List (String × Json)) : JOut

/-- Fuel-indexed core of the JSON parser.  All recursive calls decrease
the fuel, so the definition is structural and kernel-evaluable. -/
def jsonCore : Nat → JMode → List Char → Option (JOut × List Char)
  | 0, _, _ => none
  | fuel + 1, .val, cs =>
    match jsonSkipWs cs with
    | [] => none
    | 'n' :: rest =>
      if isPre ['u', 'l', 'l'] rest then some (.v .null, rest.drop 3) else none
    | 't' :: rest =>
      if isPre ['r', 'u', 'e'] rest then some (.v (.bool true), rest.drop 3) else none
    | 'f' :: rest =>
      if isPre ['a', 'l', 's', 'e'] rest then some (.v (.bool false), rest.drop 4) else none
    | '"' :: rest =>
      match jsonStrBody [] rest with
      | some (s, r) => some (.v (.str s), r)
      | none => none
    | '[' :: rest =>
      match jsonCore fuel (.elems true) rest with
      | some (.vs js, r) => some (.v (.arr js), r)
      | _ => none
    | '{' :: rest =>
      match jsonCore fuel (.fields true) rest with
      | some (.fs fs, r) => some (.v (.obj fs), r)
      | _ => none
    | c :: rest =>
      match jsonNumber (c :: rest) with
      | some (q, r) => some (.v (.num q), r)
      | none => none
  | fuel + 1, .elems first, cs =>
    match jsonSkipWs cs with
    | [] => none
    | ']' :: rest => if first then some (.vs [], rest) else none
    | c :: rest =>
      let tail := if first then c :: rest else rest
      if !first && c != ',' then none
      else
        match jsonCore fuel .val tail with
        | some (.v j, r) =>
          match jsonSkipWs r with
          | ']' :: r2 => some (.vs [j], r2)
          | r2 =>
            match jsonCore fuel (.elems false) r2 with
            | some (.vs js, r3) => some (.vs (j :: js), r3)
            | _ => none
        | _ => none
  | fuel + 1, .fields first, cs =>
    match jsonSkipWs cs with
    | [] => none
    | '}' :: rest => if first then some (.fs [], rest) else none
    | c :: rest =>
      let tail := if first then c :: rest else rest
      if !first && c != ',' then none
      else
        match jsonSkipWs tail with
        | '"' :: r =>
          match jsonStrBody [] r with
          | some (k, r1) =>
            match jsonSkipWs r1 with
            | ':' :: r2 =>
              match jsonCore fuel .val r2 with
              | some (.v j, r3) =>
                match jsonSkipWs r3 with
                | '}' :: r4 => some (.fs [(k, j)], r4)
                | r4 =>
                  match jsonCore fuel (.fields false) r4 with
                  | some (.fs fs, r5) => some (.fs ((k, j) :: fs), r5)
                  | _ => none
              | _ => none
            | _ => none
          | none => none
        | _ => none

/-- Model of the runtime `JSON.parse`: `none` models a thrown
`SyntaxError`. -/
def jsonParse (s : String) : Option Json :=
  match jsonCore (4 * (s.data.length + 1)) .val s.data with
  | some (.v j, rest) => if (jsonSkipWs rest).isEmpty then some j else none
  | _ => none

/-! ## Color worker: response decoding (`parseColors`)

Embedding of `src/projects/worker-ccai-colorextract/worker-ccai-colorextract.js`. -/

/-- A color feature as pushed by `parseColors`: name, coverage
percentage (0.0-1.0 expected, not validated) and the three RGB
channels.  All numeric fields come straight from the decoded JSON, so
they are rationals, matching the untyped JavaScript values. -/
structure Color where
  name : String
  percentage : Rat
  red : Rat
  green : Rat
  blue : Rat
deriving DecidableEq, Repr

/-- A raw HTTP response as seen by `parseColors`: `response.status`,
`response.headers['content-type']` and `response.data` (axios delivers
the multipart body as a string). -/
structure HttpResponse where
  status : Nat
  contentType : String
  body : String
deriving DecidableEq, Repr

/-- Failures that can escape `parseColors`: a `SyntaxError` thrown by
`JSON.parse`, or a `TypeError` from a property access on
`undefined`/`null` while the color entries are read out. -/
inductive JsFailure where
  | jsonSyntaxError : JsFailure
  | typeError : JsFailure
deriving DecidableEq, Repr

/-- Model of `parse-multipart`'s `getBoundary(header)` (external npm
dependency): split the header on `;`, take the first item whose trimmed
text contains `boundary`, split that item on `=` and return the trimmed
second piece; `""` when no item matches.  A matching item without `=`
yields the JavaScript string `"undefined"`. -/
def getBoundary (header : String) : String :=
  match (jsSplit header ";").find? (fun it => 0 ≤ jsIndexOf (jsTrim it) "boundary") with
  | some it => jsTrim ((jsSplit (jsTrim it) "=").getD 1 "undefined")
  | none => ""

/-- Field lookup on a JSON value, as JavaScript property access on an
object: `none` models `undefined` (missing field or non-object
receiver). -/
def jsField (j : Json) (f : String) : Option Json :=
  match j with
  | .obj fields => (fields.find? (fun kv => kv.1 = f)).map (fun kv => kv.2)
  | _ => none

/-- Read a JSON number.  The worker stores `coverage` and the three
`rgb` channels into the color record without any validation; a missing
or non-numeric field is modelled as a `TypeError` (JavaScript would let
`undefined` flow into the record; no claim distinguishes the two). -/
def asNum : Option Json → Except JsFailure Rat
  | some (.num q) => .ok q
  | _ => .error .typeError

/-- One iteration of the `for (const name in responseJson[0].colors)`
loop body: read `coverage` and `rgb.red`, `rgb.green`, `rgb.blue` and
build the color record.  No range check and no clamping is performed on
any of the values. -/
def colorOfEntry (nv : String × Json) : Except JsFailure Color := do
  let coverage ← asNum (jsField nv.2 "coverage")
  match jsField nv.2 "rgb" with
  | none => .error .typeError
  | some .null => .error .typeError
  | some rgb => do
    let red ← asNum (jsField rgb "red")
    let green ← asNum (jsField rgb "green")
    let blue ← asNum (jsField rgb "blue")
    pure ⟨nv.1, coverage, red, green, blue⟩

/-- The `colors.push(...)` loop over the enumerated entries: each entry
is converted in order and the first thrown `TypeError` aborts the
iteration. -/
def colorsLoop : List (String × Json) → Except JsFailure (List Color)
  | [] => .ok []
  | nv :: rest =>
    match colorOfEntry nv with
    | .error e => .error e
    | .ok c =>
      match colorsLoop rest with
      | .ok cs => .ok (c :: cs)
      | .error e => .error e

/-- The color extraction performed on the parsed `result` JSON:
`responseJson[0].colors` is iterated in insertion order and every entry
is turned into a color record.  `responseJson[0]` on an empty array or
a non-indexable value throws a `TypeError`; a missing or `null`
`colors` property iterates nothing (JavaScript `for..in` over
`undefined`/`null`). -/
def extractColors (j : Json) : Except JsFailure (List Color) :=
  match j with
  | .arr [] => .error .typeError
  | .arr (first :: _) =>
    match first with
    | .null => .error .typeError
    | _ =>
      match jsField first "colors" with
      | some (.obj entries) => colorsLoop entries
      | some (.arr elems) => colorsLoop (elems.enum.map (fun p => (toString p.1, p.2)))
      | some (.str s) => if s.isEmpty then .ok [] else .error .typeError
      | _ => .ok []
  | _ => .error .typeError

/-- The `Content-Disposition` marker `parseColors` scans each multipart
part for. -/
def resultDisposition : String := "Content-Disposition: form-data; name=\"result\""

/-- Embedding of `parseColors(response)`: on a 200 status, split the
body on `--boundary`, take the first part whose `indexOf` of the
`result` disposition is positive, split that part on CRLF, `JSON.parse`
its index-4 line and extract the color entries; every other path
returns the empty list.  A missing index 4 feeds `undefined` to
`JSON.parse`, which throws. -/
def parseColors (response : HttpResponse) : Except JsFailure (List Color) :=
  if response.status = 200 then
    let boundary := getBoundary response.contentType
    let parts := jsSplit response.body ("--" ++ boundary)
    match parts.find? (fun part => 0 < jsIndexOf part resultDisposition) with
    | none => .ok []
    | some part =>
      let subParts := jsSplit part "\r\n"
      match subParts.get? 4 with
      | none => .error .jsonSyntaxError
      | some line =>
        match jsonParse line with
        | none => .error .jsonSyntaxError
        | some j => extractColors j
  else .ok []

/-! ## Color worker: sorting, percentage and web-color rendering -/

/-- Embedding of `sortColors(colors)`: the source calls
`colors.sort((a, b) => b.percentage - a.percentage)`, a stable sort
(required by the ECMAScript specification) that orders by coverage
descending.  For a consistent comparator the stable sorted result is
unique, and it is computed by insertion sort with the relation
`comparator(a, b) <= 0`, i.e. `b.percentage <= a.percentage`. -/
def sortColors (colors : List Color) : List Color :=
  List.insertionSort (fun a b => b.percentage ≤ a.percentage) colors

/-- JavaScript `Math.round`: nearest integer, halves toward positive
infinity. -/
def jsRound (q : Rat) : Int :=
  ⌊q + 1 / 2⌋

/-- Embedding of `toPercentageString(color)`:
`Math.round(color.percentage * 100.0) + "%"`. -/
def toPercentageString (color : Color) : String :=
  toString (jsRound (color.percentage * 100)) ++ "%"

/-- JavaScript `ToUint8`, applied by `Buffer.from` to each array
element: truncate toward zero, then take the value modulo 256 into
`[0, 256)`. -/
def jsToUint8 (q : Rat) : Nat :=
  ((if q < 0 then -⌊-q⌋ else ⌊q⌋) % (256 : Int)).toNat

/-- Lowercase hexadecimal digit for a value below 16 (`'0'` is 48 and
`'a'` is 97 in Unicode). -/
def hexDigit (n : Nat) : Char :=
  if n < 10 then Char.ofNat (48 + n) else Char.ofNat (87 + n)

/-- The two lowercase hexadecimal digits `Buffer.toString('hex')`
renders for one byte. -/
def hexByte (b : Nat) : String :=
  ⟨[hexDigit (b / 16), hexDigit (b % 16)]⟩

/-- Embedding of `toWebColor(color)`:
`"#" + Buffer.from([color.red, color.green, color.blue]).toString('hex')`. -/
def toWebColor (color : Color) : String :=
  "#" ++ hexByte (jsToUint8 color.red) ++ hexByte (jsToUint8 color.green) ++
    hexByte (jsToUint8 color.blue)

/-- The namespaced tree handed to the external XMP serializer by the
color worker: the `ccai:colorNames`, `ccai:colorRGB` and `ccai:colors`
projections.  The serializer itself (`serializeXmp`) is an external
collaborator and out of scope. -/
structure ColorXmp where
  colorNames : List String
  colorRGB : List String
  colors : List Color
deriving DecidableEq, Repr

/-- The three projections built in the color worker `exports.main`:
a `"name, NN%"` list, a `"#rrggbb, NN%"` list, and the full structs
(`ccai:name`, `ccai:percentage`, `ccai:red`, `ccai:green`,
`ccai:blue`). -/
def assembleColorXmp (colors : List Color) : ColorXmp :=
  ⟨colors.map (fun color => color.name ++ ", " ++ toPercentageString color),
   colors.map (fun color => toWebColor color ++ ", " ++ toPercentageString color),
   colors.map (fun color => ⟨color.name, color.percentage, color.red, color.green, color.blue⟩)⟩

/-- Failure modes of one color worker invocation. -/
inductive ColorWorkerError where
  | sourceCorrupt (msg : String) : ColorWorkerError
  | axiosRejected : ColorWorkerError
  | senseiOverrideBroken : ColorWorkerError
  | jsFailure (e : JsFailure) : ColorWorkerError
deriving DecidableEq, Repr

deriving instance DecidableEq for Except

/-- Outcome of one color worker invocation: the written metadata tree
(or the error surfaced to the harness) together with the number of
classifier HTTP calls issued. -/
structure ColorRun where
  result : Except ColorWorkerError ColorXmp
  httpCalls : Nat
deriving DecidableEq, Repr

/-- Embedding of the color worker `exports.main`: check the source size
(zero length throws `SourceCorruptError` before any network call),
issue the single classifier request, decode with `parseColors`, sort
with `sortColors` and assemble the XMP tree.  `net` is the outcome of
the one `axios(request)` call (axios rejects on a non-2xx status).
A present `SENSEI_PARAMS` instruction is modelled as a failure before
the call: that branch reassigns the `const parameters` and reads the
undeclared `ext`, so it throws a `TypeError` in the source. -/
def colorMain (sourceSize : Nat) (senseiParams : Option String)
    (net : Except Unit HttpResponse) : ColorRun :=
  if sourceSize = 0 then ⟨.error (.sourceCorrupt "source file is empty"), 0⟩
  else if senseiParams.isSome then ⟨.error .senseiOverrideBroken, 0⟩
  else
    match net with
    | .error _ => ⟨.error .axiosRejected, 1⟩
    | .ok response =>
      match parseColors response with
      | .error e => ⟨.error (.jsFailure e), 1⟩
      | .ok colors => ⟨.ok (assembleColorXmp (sortColors colors)), 1⟩

/-! ## Tag worker (`src/unnamed/part_001`)

Embedding of the custom-classifier tag worker: `callClassifier` and its
`exports.main`. -/

/-- One tag as delivered inside `response.data.result[0].tags`:
`{ tag, confidence }`. -/
structure TagRec where
  tag : String
  confidence : Rat
deriving DecidableEq, Repr

/-- One entry of `response.data.result`. -/
structure TagEntry where
  tags : List TagRec
deriving DecidableEq, Repr

/-- Outcome of one `axios(config)` call in the tag worker.  `success`
carries `response.data.result` (an empty list also models a missing
`result` property: both make `result[0]` undefined and the subsequent
`.tags` access throw); `httpError` models a rejection with
`error.response` present (non-2xx status); `networkError` a rejection
without a response. -/
inductive AxiosResult where
  | success (result : List TagEntry) : AxiosResult
  | httpError (status : Nat) (statusText : String) : AxiosResult
  | networkError : AxiosResult
deriving DecidableEq, Repr

/-- `DEFAULT_CLASSIFIER_IDS` of the tag worker. -/
def DEFAULT_CLASSIFIER_IDS : String := "10021,10023"

/-- `DEFAULT_CCAI_ENDPOINT` of the tag worker. -/
def DEFAULT_CCAI_ENDPOINT : String :=
  "https://ccai-tagging-stage-va7.adobe.io/custom/images/v0/classifiers/CLASSIFIER_ID/predict_tags"

/-- `endpoint.replace('CLASSIFIER_ID', classifierId)`. -/
def classifierUrl (endpoint classifierId : String) : String :=
  jsReplaceFirst endpoint "CLASSIFIER_ID" classifierId

/-- The message of the error thrown by `callClassifier`:
`Failed getting custom tags: <status> <statusText>`; both fields render
as `undefined` when the caught error has no `response` attached. -/
def failMsg : Option (Nat × String) → String
  | some (s, t) => "Failed getting custom tags: " ++ toString s ++ " " ++ t
  | none => "Failed getting custom tags: undefined undefined"

/-- Embedding of `callClassifier(endpoint, classifierId, headers, data)`:
build the call URL, perform the request (`net` models the transport),
return `response.data.result[0].tags` on success and otherwise throw
the `failMsg` error.  The `headers` and `data` arguments only shape the
outgoing request and are absorbed into `net`. -/
def callClassifier (net : String → AxiosResult) (endpoint classifierId : String) :
    Except String (List TagRec) :=
  let classifierEndpoint := classifierUrl endpoint classifierId
  match net classifierEndpoint with
  | .success [] => .error (failMsg none)
  | .success (e :: _) => .ok e.tags
  | .httpError s t => .error (failMsg (some (s, t)))
  | .networkError => .error (failMsg none)

/-- The `for (const idx in classifier_ids)` loop of the tag worker
`exports.main`: sequentially awaited calls, tags concatenated in id
order (`allTags = allTags.concat(tags)`), first thrown error aborting
the loop. -/
def runClassifiers (net : String → AxiosResult) (endpoint : String) :
    List String → Except String (List TagRec)
  | [] => .ok []
  | id :: rest =>
    match callClassifier net endpoint id with
    | .error e => .error e
    | .ok tags =>
      match runClassifiers net endpoint rest with
      | .ok more => .ok (tags ++ more)
      | .error e => .error e

/-- The classifier ids whose HTTP call is actually issued by the loop:
every id up to and including the first failing one. -/
def callsAttempted (net : String → AxiosResult) (endpoint : String) :
    List String → List String
  | [] => []
  | id :: rest =>
    match callClassifier net endpoint id with
    | .error _ => [id]
    | .ok _ => id :: callsAttempted net endpoint rest

/-- The namespaced tree handed to the external XMP serializer by the
tag worker: the `ccai:labels` list of `(ccai:name, ccai:percentage)`
pairs. -/
structure TagXmp where
  labels : List (String × Rat)
deriving DecidableEq, Repr

/-- The `ccai:labels` mapping of the tag worker `exports.main`:
`allTags.map(t => ({"ccai:name": t.tag, "ccai:percentage": t.confidence}))`. -/
def serializeTagLabels (allTags : List TagRec) : TagXmp :=
  ⟨allTags.map (fun t => (t.tag, t.confidence))⟩

/-- Failure modes of one tag worker invocation. -/
inductive TagWorkerError where
  | sourceCorrupt (msg : String) : TagWorkerError
  | classifierFailure (msg : String) : TagWorkerError
deriving DecidableEq, Repr

/-- Outcome of one tag worker invocation: the written metadata tree (or
the error surfaced to the harness) and the classifier ids that were
called, in call order. -/
structure TagRun where
  result : Except TagWorkerError TagXmp
  calls : List String
deriving DecidableEq, Repr

/-- JavaScript `a || b` for an optional instruction string: `b` when the
instruction is absent or falsy (the empty string). -/
def jsOr (v : Option String) (dflt : String) : String :=
  match v with
  | some s => if s.isEmpty then dflt else s
  | none => dflt

/-- `(rendition.instructions.CLASSIFIER_IDS || DEFAULT_CLASSIFIER_IDS).split(',')`. -/
def tagClassifierIds (instrIds : Option String) : List String :=
  jsSplit (jsOr instrIds DEFAULT_CLASSIFIER_IDS) ","

/-- Embedding of the tag worker `exports.main`: resolve the classifier
id list and endpoint template, fail with `SourceCorruptError` on a
zero-length source before any call, then run the classifier loop and on
full success serialize the concatenated tags; the metadata document is
written (to `rendition.path`) exactly when the result is `ok`. -/
def tagMain (sourceSize : Nat) (instrIds instrEndpoint : Option String)
    (net : String → AxiosResult) : TagRun :=
  let ids := tagClassifierIds instrIds
  let endpoint := jsOr instrEndpoint DEFAULT_CCAI_ENDPOINT
  if sourceSize = 0 then ⟨.error (.sourceCorrupt "source file is empty"), []⟩
  else
    match runClassifiers net endpoint ids with
    | .error e => ⟨.error (.classifierFailure e), callsAttempted net endpoint ids⟩
    | .ok allTags => ⟨.ok (serializeTagLabels allTags), callsAttempted net endpoint ids⟩

/-! ## Auxiliary definitions used by the claims -/

/-- Whether an axios outcome is a rejection carrying a response with a
non-success HTTP status. -/
def AxiosResult.isHttpError : AxiosResult → Bool
  | .httpError _ _ => true
  | _ => false

/-- The tags a fully well-formed successful response carries
(`response.data.result[0].tags`), `none` for every other outcome. -/
def AxiosResult.successFirstTags : AxiosResult → Option (List TagRec)
  | .success (e :: _) => some e.tags
  | _ => none

/-- Content type of the canonical multipart classifier response. -/
def ctMultipart : String := "multipart/form-data; boundary=Boundary123"

/-- The `result` part JSON of the spec's decode example:
`[{"colors":{"red":{"coverage":0.6,"rgb":{"red":200,"green":10,"blue":10}}}}]`. -/
def resultJsonRed : String :=
  "[\x7b\"colors\":\x7b\"red\":\x7b\"coverage\":0.6,\"rgb\":\x7b\"red\":200,\"green\":10,\"blue\":10\x7d\x7d\x7d\x7d]"

/-- Canonical multipart framing of a `result` part carrying the given
JSON: boundary line, `Content-Disposition` and `Content-Type` part
headers, blank line, body, closing boundary. -/
def multipartBody (partJson : String) : String :=
  "--Boundary123\r\nContent-Disposition: form-data; name=\"result\"\r\n" ++
    "Content-Type: application/json\r\n\r\n" ++ partJson ++ "\r\n--Boundary123--\r\n"

/-- A multipart body whose only part is named `other`: no `result` part
anywhere. -/
def multipartBodyOther : String :=
  "--Boundary123\r\nContent-Disposition: form-data; name=\"other\"\r\n" ++
    "Content-Type: application/json\r\n\r\n[]\r\n--Boundary123--\r\n"

/-- The `result` part JSON with an out-of-range red channel:
`rgb.red = 300`. -/
def resultJsonRed300 : String :=
  "[\x7b\"colors\":\x7b\"red\":\x7b\"coverage\":0.6,\"rgb\":\x7b\"red\":300,\"green\":10,\"blue\":10\x7d\x7d\x7d\x7d]"

/-- The JSON object a well-shaped color entry decodes to:
`name -> {coverage, rgb: {red, green, blue}}`. -/
def colorEntryJson (c : Color) : String × Json :=
  (c.name, .obj [("coverage", .num c.percentage),
                 ("rgb", .obj [("red", .num c.red), ("green", .num c.green),
                               ("blue", .num c.blue)])])

/-- The decoded `result` JSON holding the given color entries:
`[{colors: {...}}]`. -/
def colorsResponseJson (cs : List Color) : Json :=
  .arr [.obj [("colors", .obj (cs.map colorEntryJson))]]

/-- A transport in which classifier 10021 succeeds with one tag and
every other call is rejected with HTTP 500. -/
def netOneFailing : String → AxiosResult := fun url =>
  if url = "10021" then .success [⟨[⟨"cat", 0.9⟩]⟩]
  else .httpError 500 "Internal Server Error"

/-- A transport in which classifier 10021 returns one low-confidence
tag and every other classifier one high-confidence tag. -/
def netUnsorted : String → AxiosResult := fun url =>
  if url = "10021" then .success [⟨[⟨"t1", 0.2⟩]⟩]
  else .success [⟨[⟨"t2", 0.9⟩]⟩]

/-- A transport rejecting every call with HTTP 500. -/
def netAll500 : String → AxiosResult := fun _ =>
  .httpError 500 "Internal Server Error"

/-- The lowercase hexadecimal digit characters. -/
def isLowerHexDigit (c : Char) : Bool :=
  "0123456789abcdef".data.contains c
/-! ## Claims about the color response decoder -/

set_option maxRecDepth 100000 in
/-- C5: for the well-formed multipart response whose `result` part
carries `[{"colors":{"red":{"coverage":0.6,"rgb":{"red":200,"green":10,
"blue":10}}}}]`, decoding followed by normalization yields exactly one
color feature with name `red`, coverage 0.6, red 200, green 10,
blue 10. -/
theorem multipart_result_decodes_to_single_color :
    parseColors ⟨200, ctMultipart, multipartBody resultJsonRed⟩ =
      .ok [⟨"red", 0.6, 200, 10, 10⟩] := by
  with_unfolding_all rfl

/-- C4: a 200 multipart response none of whose parts contains a
`Content-Disposition` naming the part `result` decodes to the empty
feature list, without raising any error. -/
theorem multipart_missing_result_yields_empty (response : HttpResponse)
    (h200 : response.status = 200)
    (habsent : ∀ part ∈ jsSplit response.body ("--" ++ getBoundary response.contentType),
      jsIndexOf part resultDisposition < 0) :
    parseColors response = .ok [] := by
  have hfind : (jsSplit response.body ("--" ++ getBoundary response.contentType)).find?
      (fun part => 0 < jsIndexOf part resultDisposition) = none := by
    rw [List.find?_eq_none]
    intro p hp
    have h := habsent p hp
    simp only [decide_eq_true_eq]
    omega
  simp [parseColors, h200, hfind]

set_option maxRecDepth 100000 in
/-- Witness for C4 at a concrete 200 response without a `result`
part. -/
theorem multipart_missing_result_yields_empty_witness :
    parseColors ⟨200, ctMultipart, multipartBodyOther⟩ = .ok [] :=
  multipart_missing_result_yields_empty ⟨200, ctMultipart, multipartBodyOther⟩ rfl
    (by decide)

set_option maxRecDepth 100000 in
/-- C3 counterexample: a decoded color record with `rgb.red = 300`
does NOT fail normalization — `parseColors` succeeds and passes the
out-of-range value 300 through to the output feature unchanged.  There
is no `InvalidFeatureError` anywhere in the worker. -/
theorem color_red_300_passes_through :
    parseColors ⟨200, ctMultipart, multipartBody resultJsonRed300⟩ =
      .ok [⟨"red", 0.6, 300, 10, 10⟩] := by
  with_unfolding_all rfl

/-- Converting a well-shaped entry succeeds with its values taken
verbatim. -/
theorem colorOfEntry_colorEntryJson (c : Color) :
    colorOfEntry (colorEntryJson c) = .ok c := rfl

/-- The extraction loop maps well-shaped entries one-to-one. -/
theorem colorsLoop_map_colorEntryJson (cs : List Color) :
    colorsLoop (cs.map colorEntryJson) = .ok cs := by
  induction cs with
  | nil => rfl
  | cons c rest ih =>
    simp only [List.map_cons, colorsLoop, colorOfEntry_colorEntryJson, ih]

/-- C3 amended: color normalization performs no range validation at
all.  Every decoded color entry — including channel values outside
[0,255] or coverage outside [0,1] — is passed through unchanged to the
output features: it never raises an error and never clamps. -/
theorem color_normalization_never_validates (cs : List Color) :
    extractColors (colorsResponseJson cs) = .ok cs :=
  colorsLoop_map_colorEntryJson cs

/-- Witness for the amended C3 at a concrete out-of-range entry list:
red 300 and coverage 2.5 survive unchanged. -/
theorem color_normalization_never_validates_witness :
    extractColors (colorsResponseJson [⟨"red", 2.5, 300, -1, 10⟩]) =
      .ok [⟨"red", 2.5, 300, -1, 10⟩] :=
  color_normalization_never_validates [⟨"red", 2.5, 300, -1, 10⟩]

/-- C10: a response whose status is not 200 makes `parseColors` return
the empty feature list without raising any error, and if such a
response reaches the decoding stage of the worker the invocation
succeeds with an empty metadata document (all three projections
empty). -/
theorem non_success_status_parses_empty :
    (∀ response : HttpResponse, response.status ≠ 200 → parseColors response = .ok []) ∧
    (∀ (sourceSize : Nat) (response : HttpResponse), sourceSize ≠ 0 →
      response.status ≠ 200 →
      colorMain sourceSize none (.ok response) = ⟨.ok ⟨[], [], []⟩, 1⟩) := by
  have hparse : ∀ response : HttpResponse, response.status ≠ 200 →
      parseColors response = .ok [] := by
    intro response h
    simp [parseColors, h]
  refine ⟨hparse, ?_⟩
  intro sourceSize response hsz h200
  simp [colorMain, hsz, hparse response h200, sortColors, assembleColorXmp,
    List.insertionSort]

/-- Witness for C10 at a concrete 503 response. -/
theorem non_success_status_parses_empty_witness :
    parseColors ⟨503, ctMultipart, multipartBody resultJsonRed⟩ = .ok [] ∧
    colorMain 7 none (.ok ⟨503, ctMultipart, multipartBody resultJsonRed⟩) =
      ⟨.ok ⟨[], [], []⟩, 1⟩ :=
  ⟨non_success_status_parses_empty.1 _ (by decide),
   non_success_status_parses_empty.2 7 _ (by decide) (by decide)⟩

/-! ## Claims about the tag worker -/

/-- The sequential classifier loop surfaces an error whenever any id in
the list gets a non-success HTTP response. -/
theorem runClassifiers_error_of_httpError (net : String → AxiosResult) (ep : String) :
    ∀ (ids : List String) (id : String), id ∈ ids →
      (net (classifierUrl ep id)).isHttpError = true →
      ∃ e, runClassifiers net ep ids = .error e := by
  intro ids
  induction ids with
  | nil => intro id h; cases h
  | cons a rest ih =>
    intro id hmem hfail
    cases hc : callClassifier net ep a with
    | error e => exact ⟨e, by simp [runClassifiers, hc]⟩
    | ok tags =>
      rcases List.mem_cons.mp hmem with rfl | hmem2
      · exfalso
        cases hn : net (classifierUrl ep id) with
        | success r => rw [hn] at hfail; simp [AxiosResult.isHttpError] at hfail
        | httpError s t => simp [callClassifier, hn] at hc
        | networkError => rw [hn] at hfail; simp [AxiosResult.isHttpError] at hfail
      · obtain ⟨e, he⟩ := ih id hmem2 hfail
        exact ⟨e, by simp [runClassifiers, hc, he]⟩

/-- C1: if any classifier call of the tag pipeline gets a non-success
HTTP status, the whole worker invocation fails with an error, so the
already collected tags are discarded and no metadata document is
written (a document is written exactly when the result is `ok`). -/
theorem tag_pipeline_aborts_on_classifier_failure
    (sourceSize : Nat) (instrIds instrEndpoint : Option String)
    (net : String → AxiosResult)
    (hfail : ∃ id ∈ tagClassifierIds instrIds,
      (net (classifierUrl (jsOr instrEndpoint DEFAULT_CCAI_ENDPOINT) id)).isHttpError = true) :
    ∃ e, (tagMain sourceSize instrIds instrEndpoint net).result = .error e := by
  obtain ⟨id, hmem, hhttp⟩ := hfail
  by_cases hs : sourceSize = 0
  · exact ⟨.sourceCorrupt "source file is empty", by simp [tagMain, hs]⟩
  · obtain ⟨e, he⟩ := runClassifiers_error_of_httpError net _ _ id hmem hhttp
    exact ⟨.classifierFailure e, by simp [tagMain, hs, he]⟩

/-- Witness for C1: classifier 10021 succeeds, 10023 answers 500, the
invocation errors out. -/
theorem tag_pipeline_aborts_on_classifier_failure_witness :
    ∃ e, (tagMain 1 none (some "CLASSIFIER_ID") netOneFailing).result = .error e :=
  tag_pipeline_aborts_on_classifier_failure 1 none (some "CLASSIFIER_ID") netOneFailing
    ⟨"10023", by decide, by decide⟩

/-- C6 counterexample: the error thrown for a failed classifier call
does not carry the classifier id.  Two different classifier ids failing
with the same HTTP 500 produce literally identical errors, whose
message contains the status and status text but no occurrence of either
id. -/
theorem classifier_error_lacks_id_counterexample :
    callClassifier netAll500 DEFAULT_CCAI_ENDPOINT "10021" =
      .error "Failed getting custom tags: 500 Internal Server Error" ∧
    callClassifier netAll500 DEFAULT_CCAI_ENDPOINT "10023" =
      .error "Failed getting custom tags: 500 Internal Server Error" ∧
    jsIndexOf "Failed getting custom tags: 500 Internal Server Error" "10021" = -1 ∧
    jsIndexOf "Failed getting custom tags: 500 Internal Server Error" "10023" = -1 := by
  refine ⟨by decide, by decide, by decide, by decide⟩

/-- C6 amended: the error raised for a failing classifier call carries
the HTTP status and status text, but not the classifier id — the
outcome of `callClassifier` is a function of the transport response
alone, so failures from different classifiers are
indistinguishable. -/
theorem classifier_error_carries_status_not_id :
    (∀ (net : String → AxiosResult) (ep id : String) (s : Nat) (t : String),
      net (classifierUrl ep id) = .httpError s t →
      callClassifier net ep id =
        .error ("Failed getting custom tags: " ++ toString s ++ " " ++ t)) ∧
    (∀ (r : AxiosResult) (net1 net2 : String → AxiosResult) (ep1 ep2 id1 id2 : String),
      net1 (classifierUrl ep1 id1) = r → net2 (classifierUrl ep2 id2) = r →
      callClassifier net1 ep1 id1 = callClassifier net2 ep2 id2) := by
  constructor
  · intro net ep id s t h
    simp [callClassifier, h, failMsg]
  · intro r net1 net2 ep1 ep2 id1 id2 h1 h2
    simp only [callClassifier, h1, h2]

/-- Witness for the amended C6 at HTTP 500 and two different
classifier ids. -/
theorem classifier_error_carries_status_not_id_witness :
    callClassifier netAll500 DEFAULT_CCAI_ENDPOINT "10021" =
      .error ("Failed getting custom tags: " ++ toString 500 ++ " " ++
        "Internal Server Error") ∧
    callClassifier netAll500 DEFAULT_CCAI_ENDPOINT "77" =
      callClassifier netAll500 DEFAULT_CCAI_ENDPOINT "88" :=
  ⟨classifier_error_carries_status_not_id.1 netAll500 DEFAULT_CCAI_ENDPOINT "10021"
      500 "Internal Server Error" rfl,
   classifier_error_carries_status_not_id.2 (.httpError 500 "Internal Server Error")
      netAll500 netAll500 DEFAULT_CCAI_ENDPOINT DEFAULT_CCAI_ENDPOINT "77" "88" rfl rfl⟩

/-- C7: an invocation on a zero-length source file fails with the
`SourceCorruptError` message, and no classifier HTTP call is issued, in
both the tag worker and the color worker. -/
theorem zero_length_source_fails_before_any_call :
    (∀ (instrIds instrEndpoint : Option String) (net : String → AxiosResult),
      tagMain 0 instrIds instrEndpoint net =
        ⟨.error (.sourceCorrupt "source file is empty"), []⟩) ∧
    (∀ (senseiParams : Option String) (net : Except Unit HttpResponse),
      colorMain 0 senseiParams net =
        ⟨.error (.sourceCorrupt "source file is empty"), 0⟩) :=
  ⟨fun _ _ _ => rfl, fun _ _ => rfl⟩

/-- C2 counterexample: the tag pipeline performs no sort at all.  With
classifier 10021 returning confidence 0.2 and classifier 10023
returning confidence 0.9, the aggregated label list is exactly the
concatenation `[0.2, 0.9]`, which is not non-increasing by
confidence. -/
theorem aggregate_output_not_sorted_counterexample :
    (tagMain 1 none (some "CLASSIFIER_ID") netUnsorted).result =
      .ok ⟨[("t1", 0.2), ("t2", 0.9)]⟩ ∧
    ¬ List.Pairwise (fun a b : String × Rat => b.2 ≤ a.2)
        [("t1", (0.2 : Rat)), ("t2", (0.9 : Rat))] := by
  constructor
  · with_unfolding_all rfl
  · intro h
    have hle := (List.pairwise_cons.mp h).1 ("t2", (0.9 : Rat)) (by simp)
    norm_num at hle

/-- All-success runs of the classifier loop return exactly the
concatenation of each classifier's tags, in id order. -/
theorem runClassifiers_ok_of_success (net : String → AxiosResult) (ep : String) :
    ∀ ids : List String,
      (∀ id ∈ ids, ((net (classifierUrl ep id)).successFirstTags).isSome) →
      runClassifiers net ep ids =
        .ok (ids.flatMap fun id => ((net (classifierUrl ep id)).successFirstTags).getD []) := by
  intro ids
  induction ids with
  | nil => intro; rfl
  | cons a rest ih =>
    intro hall
    have ha := hall a (List.mem_cons_self a rest)
    have hr := ih (fun id hid => hall id (List.mem_cons_of_mem a hid))
    cases hn : net (classifierUrl ep a) with
    | success r =>
      cases r with
      | nil => rw [hn] at ha; simp [AxiosResult.successFirstTags] at ha
      | cons e es =>
        have hc : callClassifier net ep a = .ok e.tags := by
          simp [callClassifier, hn]
        simp [runClassifiers, hc, hr, hn, AxiosResult.successFirstTags]
    | httpError s t => rw [hn] at ha; simp [AxiosResult.successFirstTags] at ha
    | networkError => rw [hn] at ha; simp [AxiosResult.successFirstTags] at ha

/-- C2 amended: when every classifier call succeeds (and no threshold
filter exists in the code), the pipeline output is the concatenation of
the normalized tags in classifier invocation order — the count equals
the total number of input tag features (nothing is dropped) — but no
sort is applied, so the result is in concatenation order, not
necessarily ordered by confidence. -/
theorem aggregate_concatenates_in_order_preserving_count
    (sourceSize : Nat) (instrIds instrEndpoint : Option String)
    (net : String → AxiosResult)
    (hsz : sourceSize ≠ 0)
    (hok : ∀ id ∈ tagClassifierIds instrIds,
      ((net (classifierUrl (jsOr instrEndpoint DEFAULT_CCAI_ENDPOINT) id)).successFirstTags).isSome) :
    (tagMain sourceSize instrIds instrEndpoint net).result =
      .ok ⟨(((tagClassifierIds instrIds).flatMap fun id =>
          ((net (classifierUrl (jsOr instrEndpoint DEFAULT_CCAI_ENDPOINT) id)).successFirstTags).getD []).map
        (fun t => (t.tag, t.confidence)))⟩ ∧
    (((tagClassifierIds instrIds).flatMap fun id =>
        ((net (classifierUrl (jsOr instrEndpoint DEFAULT_CCAI_ENDPOINT) id)).successFirstTags).getD []).map
      (fun t => (t.tag, t.confidence))).length =
      ((tagClassifierIds instrIds).map fun id =>
        (((net (classifierUrl (jsOr instrEndpoint DEFAULT_CCAI_ENDPOINT) id)).successFirstTags).getD []).length).sum := by
  constructor
  · have hr := runClassifiers_ok_of_success net (jsOr instrEndpoint DEFAULT_CCAI_ENDPOINT)
      (tagClassifierIds instrIds) hok
    simp [tagMain, hsz, hr, serializeTagLabels]
  · rw [List.length_map]
    induction tagClassifierIds instrIds with
    | nil => rfl
    | cons a rest ih => simp [List.flatMap_cons, ih]

/-- Witness for the amended C2 at the concrete two-classifier run used
by the counterexample. -/
theorem aggregate_concatenates_in_order_preserving_count_witness :
    (tagMain 1 none (some "CLASSIFIER_ID") netUnsorted).result =
      .ok ⟨(((tagClassifierIds none).flatMap fun id =>
          ((netUnsorted (classifierUrl (jsOr (some "CLASSIFIER_ID") DEFAULT_CCAI_ENDPOINT) id)).successFirstTags).getD []).map
        (fun t => (t.tag, t.confidence)))⟩ :=
  (aggregate_concatenates_in_order_preserving_count 1 none (some "CLASSIFIER_ID")
    netUnsorted (by decide) (by decide)).1

/-! ## Claims about sorting and web-color rendering -/

/-- C8: the color list handed to the metadata assembler after
`sortColors` is fully ordered descending by its coverage field, it is a
permutation of the decoded features, and the three emitted projections
are each the image of that same sorted list, so their ordering is
identical to the FeatureSet ordering. -/
theorem sorted_colors_feed_identical_projections (colors : List Color) :
    List.Pairwise (fun a b : Color => b.percentage ≤ a.percentage) (sortColors colors) ∧
    (sortColors colors).Perm colors ∧
    (assembleColorXmp (sortColors colors)).colorNames =
      (sortColors colors).map (fun c => c.name ++ ", " ++ toPercentageString c) ∧
    (assembleColorXmp (sortColors colors)).colorRGB =
      (sortColors colors).map (fun c => toWebColor c ++ ", " ++ toPercentageString c) ∧
    (assembleColorXmp (sortColors colors)).colors = sortColors colors := by
  refine ⟨?_, ?_, rfl, rfl, ?_⟩
  · haveI : IsTotal Color (fun a b : Color => b.percentage ≤ a.percentage) :=
      ⟨fun a b => le_total _ _⟩
    haveI : IsTrans Color (fun a b : Color => b.percentage ≤ a.percentage) :=
      ⟨fun _ _ _ hab hbc => le_trans hbc hab⟩
    exact List.sorted_insertionSort _ colors
  · exact List.perm_insertionSort _ colors
  · have hid : (fun c : Color =>
        (⟨c.name, c.percentage, c.red, c.green, c.blue⟩ : Color)) = id :=
      funext fun c => rfl
    show (sortColors colors).map _ = sortColors colors
    rw [hid, List.map_id]

/-- Channel values are rendered by the lowercase hexadecimal
alphabet. -/
theorem hexDigit_mem_lowerHex (n : Nat) (h : n < 16) :
    isLowerHexDigit (hexDigit n) = true := by
  interval_cases n <;> decide

/-- A byte renders as exactly two characters. -/
theorem hexByte_length (b : Nat) : (hexByte b).length = 2 := rfl

/-- Integer channel values in [0,255] pass through `ToUint8`
unchanged. -/
theorem jsToUint8_natCast (r : Nat) (h : r ≤ 255) : jsToUint8 (r : Rat) = r := by
  unfold jsToUint8
  rw [if_neg (not_lt.mpr (by positivity)), Int.floor_natCast]
  omega

/-- C9: for a color feature with integer channel values in [0,255] the
web color string is `#` followed by exactly six lowercase hexadecimal
digits, the two zero-padded digits of each channel in red-green-blue
order with no separators; in particular red 10, green 0, blue 255 maps
to `#0a00ff`. -/
theorem toWebColor_hex_format :
    (∀ (c : Color) (r g b : Nat), r ≤ 255 → g ≤ 255 → b ≤ 255 →
      c.red = (r : Rat) → c.green = (g : Rat) → c.blue = (b : Rat) →
      toWebColor c = "#" ++ hexByte r ++ hexByte g ++ hexByte b ∧
      (toWebColor c).length = 7 ∧
      (toWebColor c).data.head? = some '#' ∧
      ∀ ch ∈ (toWebColor c).data.tail, isLowerHexDigit ch = true) ∧
    toWebColor ⟨"blue", 1, 10, 0, 255⟩ = "#0a00ff" := by
  constructor
  · intro c r g b hr hg hb her heg heb
    have hw : toWebColor c = "#" ++ hexByte r ++ hexByte g ++ hexByte b := by
      unfold toWebColor
      rw [her, heg, heb, jsToUint8_natCast r hr, jsToUint8_natCast g hg,
        jsToUint8_natCast b hb]
    refine ⟨hw, ?_, ?_, ?_⟩
    · rw [hw]
      simp [String.length_append, hexByte_length]
      rfl
    · rw [hw]
      simp [String.data_append, hexByte]
    · rw [hw]
      simp only [String.data_append, hexByte, List.tail]
      intro ch hch
      simp at hch
      rcases hch with rfl | rfl | rfl | rfl | rfl | rfl <;>
        exact hexDigit_mem_lowerHex _ (by omega)
  · with_unfolding_all rfl

/-- Witness for C9 at red 10, green 0, blue 255. -/
theorem toWebColor_hex_format_witness :
    toWebColor ⟨"c", 0, 10, 0, 255⟩ = "#" ++ hexByte 10 ++ hexByte 0 ++ hexByte 255 :=
  (toWebColor_hex_format.1 ⟨"c", 0, 10, 0, 255⟩ 10 0 255 (by norm_num) (by norm_num)
    (by norm_num) (by norm_num) (by norm_num) (by norm_num)).1
